import Mathlib

/-!
Shallow embedding of the result-validation pipeline and task-state façade of
the Github_PR_Automation repository (files `worker.py`, `models.py`,
`main.py`), together with theorems settling the specification claims.

Python strings are modelled as Lean `String`s, with the Python string
operations (`strip`, `startswith`, `endswith`, slicing) implemented over the
underlying character list so that they are both executable and amenable to
proof.
-/

set_option maxRecDepth 4000

/-- The whitespace characters removed by Python's `str.strip()` (ASCII
fragment: space, tab, newline, carriage return, vertical tab, form feed). -/
def pyIsSpace (c : Char) : Bool :=
  c = ' ' || c = '\t' || c = '\n' || c = '\x0d' || c = '\x0b' || c = '\x0c'

/-- `str.strip()` on the character list: drop whitespace from both ends. -/
def pyStripList (l : List Char) : List Char :=
  List.rdropWhile pyIsSpace (List.dropWhile pyIsSpace l)

/-- Python `text.strip()`. -/
def pyStrip (s : String) : String :=
  String.mk (pyStripList s.data)

/-- Python `text.startswith(pre)`. -/
def pyStartsWith (s pre : String) : Bool :=
  List.isPrefixOf pre.data s.data

/-- Python `text.endswith(suf)`. -/
def pyEndsWith (s suf : String) : Bool :=
  List.isSuffixOf suf.data s.data

/-- Python `text[n:]`. -/
def pySliceFrom (n : Nat) (s : String) : String :=
  String.mk (s.data.drop n)

/-- Python `text[:-n]` (for `n ≤ len(text)`; the source only uses it after an
`endswith` check, where this agrees with Python). -/
def pySliceToNeg (n : Nat) (s : String) : String :=
  String.mk (s.data.take (s.data.length - n))

/-- Python `text[:n]`. -/
def pySliceTo (n : Nat) (s : String) : String :=
  String.mk (s.data.take n)

/-- The leading-fence removal step of `clean_llm_output`: one "```json" or
"```" marker dropped from the front (7 resp. 3 characters). -/
def stripLeadingFence (text : String) : String :=
  if pyStartsWith text ("```json") then pySliceFrom 7 text
  else if pyStartsWith text ("```") then pySliceFrom 3 text
  else text

/-- The trailing-fence removal step of `clean_llm_output`: one "```" marker
dropped from the end. -/
def stripTrailingFence (text : String) : String :=
  if pyEndsWith text ("```") then pySliceToNeg 3 text else text

/-- `worker.clean_llm_output`: strip whitespace, drop one leading
"```json" or "```" fence marker, drop one trailing "```" marker, strip
again.  The `except` fallback in the source is dead code here: none of
these string operations can raise. -/
def clean_llm_output (text : String) : String :=
  pyStrip (stripTrailingFence (stripLeadingFence (pyStrip text)))

/-!
## Generic structured values and the report parser

`json.loads` is modelled by `parseJson`: a strict recursive-descent parser
for the JSON fragment the pipeline exchanges (objects, arrays, strings with
the one-character escapes, integers, `true`/`false`/`null`).  Number tokens
with a fraction or exponent are kept as `numOther` tokens; integer-typed
schema fields reject them.
-/

/-- The generic structured value produced by the report parser. -/
inductive Json where
  | null : Json
  | bool (b : Bool) : Json
  | num (n : Int) : Json
  | numOther (tok : String) : Json
  | str (s : String) : Json
  | arr (elems : List Json) : Json
  | obj (fields : List (String × Json)) : Json

/-- JSON insignificant whitespace. -/
def skipJsonWs (cs : List Char) : List Char :=
  cs.dropWhile (fun c => c = ' ' || c = '\t' || c = '\n' || c = '\x0d')

/-- Consume an exact literal (`null`, `true`, `false` tails). -/
def parseLit (lit : List Char) (cs : List Char) : Option (List Char) :=
  if List.isPrefixOf lit cs then some (cs.drop lit.length) else none

/-- The one-character string escapes of JSON (`\uXXXX` is outside the
modelled fragment). -/
def escChar (c : Char) : Option Char :=
  if c = '"' then some '"'
  else if c = '\\' then some '\\'
  else if c = '/' then some '/'
  else if c = 'n' then some '\n'
  else if c = 't' then some '\t'
  else if c = 'r' then some '\x0d'
  else if c = 'b' then some '\x08'
  else if c = 'f' then some '\x0c'
  else none

/-- Parse the body of a JSON string after the opening quote; returns the
decoded characters and the input remaining after the closing quote. -/
def parseStringChars : List Char → Option (List Char × List Char)
  | [] => none
  | c :: rest =>
    if c = '"' then some ([], rest)
    else if c = '\\' then
      match rest with
      | [] => none
      | e :: rest2 =>
        match escChar e with
        | none => none
        | some d =>
          match parseStringChars rest2 with
          | none => none
          | some (acc, remaining) => some (d :: acc, remaining)
    else
      match parseStringChars rest with
      | none => none
      | some (acc, remaining) => some (c :: acc, remaining)

def isDigitChar (c : Char) : Bool := '0' ≤ c && c ≤ '9'

def digitsToNat (ds : List Char) : Nat :=
  ds.foldl (fun acc d => acc * 10 + (d.toNat - 48)) 0

def isNumTokenChar (c : Char) : Bool :=
  isDigitChar c || c = '.' || c = 'e' || c = 'E' || c = '+' || c = '-'

/-- Parse a JSON number token.  Plain integers become `Json.num`; tokens
with a fraction or exponent are kept verbatim as `Json.numOther`. -/
def parseNumber (cs : List Char) : Option (Json × List Char) :=
  let signAndRest : Bool × List Char :=
    match cs with
    | '-' :: rest => (true, rest)
    | _ => (false, cs)
  let neg := signAndRest.1
  let cs1 := signAndRest.2
  let digits := cs1.takeWhile isDigitChar
  if digits = [] then none
  else
    let rest2 := cs1.drop digits.length
    match rest2 with
    | c :: _ =>
      if c = '.' || c = 'e' || c = 'E' then
        let tok := cs.takeWhile isNumTokenChar
        some (Json.numOther (String.mk tok), cs.drop tok.length)
      else
        let n : Int := Int.ofNat (digitsToNat digits)
        some (Json.num (if neg then -n else n), rest2)
    | [] =>
      let n : Int := Int.ofNat (digitsToNat digits)
      some (Json.num (if neg then -n else n), rest2)

mutual

/-- Parse one JSON value (fuel-indexed recursive descent). -/
def parseVal : Nat → List Char → Option (Json × List Char)
  | 0, _ => none
  | Nat.succ fuel, cs =>
    match skipJsonWs cs with
    | [] => none
    | c :: rest =>
      if c = 'n' then
        match parseLit ['u', 'l', 'l'] rest with
        | some rem => some (Json.null, rem)
        | none => none
      else if c = 't' then
        match parseLit ['r', 'u', 'e'] rest with
        | some rem => some (Json.bool true, rem)
        | none => none
      else if c = 'f' then
        match parseLit ['a', 'l', 's', 'e'] rest with
        | some rem => some (Json.bool false, rem)
        | none => none
      else if c = '"' then
        match parseStringChars rest with
        | some (chars, rem) => some (Json.str (String.mk chars), rem)
        | none => none
      else if c = '\x5b' then
        match skipJsonWs rest with
        | '\x5d' :: rem => some (Json.arr [], rem)
        | _ =>
          match parseArrItems fuel rest with
          | some (js, rem) => some (Json.arr js, rem)
          | none => none
      else if c = '\x7b' then
        match skipJsonWs rest with
        | '\x7d' :: rem => some (Json.obj [], rem)
        | _ =>
          match parseObjItems fuel rest with
          | some (kvs, rem) => some (Json.obj kvs, rem)
          | none => none
      else if c = '-' || isDigitChar c then parseNumber (c :: rest)
      else none

/-- Parse the comma-separated items of a non-empty array, including the
closing bracket. -/
def parseArrItems : Nat → List Char → Option (List Json × List Char)
  | 0, _ => none
  | Nat.succ fuel, cs =>
    match parseVal fuel cs with
    | none => none
    | some (j, rem) =>
      match skipJsonWs rem with
      | ',' :: rem2 =>
        match parseArrItems fuel rem2 with
        | some (js, rem3) => some (j :: js, rem3)
        | none => none
      | '\x5d' :: rem2 => some ([j], rem2)
      | _ => none

/-- Parse the comma-separated members of a non-empty object, including the
closing brace. -/
def parseObjItems : Nat → List Char → Option (List (String × Json) × List Char)
  | 0, _ => none
  | Nat.succ fuel, cs =>
    match skipJsonWs cs with
    | '"' :: rest =>
      match parseStringChars rest with
      | none => none
      | some (keyChars, rem) =>
        match skipJsonWs rem with
        | ':' :: rem2 =>
          match parseVal fuel rem2 with
          | none => none
          | some (j, rem3) =>
            match skipJsonWs rem3 with
            | ',' :: rem4 =>
              match parseObjItems fuel rem4 with
              | some (kvs, rem5) => some ((String.mk keyChars, j) :: kvs, rem5)
              | none => none
            | '\x7d' :: rem4 => some ([(String.mk keyChars, j)], rem4)
            | _ => none
        | _ => none
    | _ => none

end

/-- `json.loads`: strict parse of the whole input, no trailing garbage. -/
def parseJson (s : String) : Option Json :=
  match parseVal (s.data.length + 1) s.data with
  | some (j, rem) => if skipJsonWs rem = [] then some j else none
  | none => none

/-!
## Python runtime values

The pipeline's return values are Python dictionaries; `Py` models the
fragment of Python values they involve.
-/

/-- Python runtime values exchanged by the worker and the façade. -/
inductive Py where
  | none : Py
  | bool (b : Bool) : Py
  | int (n : Int) : Py
  | floatTok (tok : String) : Py
  | str (s : String) : Py
  | list (xs : List Py) : Py
  | dict (kvs : List (String × Py)) : Py

/-- The keys of a Python dict (empty for non-dicts). -/
def pyKeys : Py → List String
  | Py.dict kvs => kvs.map Prod.fst
  | _ => []

/-- Python dict lookup (`d[k]` / `d.get(k)`); with duplicate keys the last
binding wins, as in a Python dict built left to right. -/
def pyGet : Py → String → Option Py
  | Py.dict kvs, k => ((kvs.filter (fun kv => kv.1 == k)).getLast?).map Prod.snd
  | _, _ => Option.none

/-- Python `k in d`. -/
def pyHasKey (p : Py) (k : String) : Bool :=
  (pyGet p k).isSome

mutual

/-- The Python object corresponding to a parsed generic value (what
`json.loads` hands to the validator and what the error dict stores as
`raw_response`). -/
def pyOfJson : Json → Py
  | Json.null => Py.none
  | Json.bool b => Py.bool b
  | Json.num n => Py.int n
  | Json.numOther tok => Py.floatTok tok
  | Json.str s => Py.str s
  | Json.arr xs => Py.list (pyOfJsonList xs)
  | Json.obj kvs => Py.dict (pyOfJsonFields kvs)

def pyOfJsonList : List Json → List Py
  | [] => []
  | x :: xs => pyOfJson x :: pyOfJsonList xs

def pyOfJsonFields : List (String × Json) → List (String × Py)
  | [] => []
  | (k, v) :: xs => (k, pyOfJson v) :: pyOfJsonFields xs

end

/-!
## The report schema (`models.py`)

The four model classes and their field constraints, exactly as declared in
the source: `AnalysisIssue.line` is an `int` with NO lower bound; the three
summary counts carry `ge=0`; `files` and `issues` default to `[]`
(`default_factory=list`); `summary` is required.  The embedded validator
reports the first defect it meets, naming the offending field path; the
source's validator library collects every defect into one message, but the
claims only inspect whether validation fails and which path is named.
-/

structure AnalysisIssue where
  type : String
  line : Int
  description : String
  suggestion : String
deriving DecidableEq

structure FileAnalysis where
  name : String
  issues : List AnalysisIssue
deriving DecidableEq

structure AnalysisSummary where
  total_files : Int
  total_issues : Int
  critical_issues : Int
deriving DecidableEq

structure FinalReport where
  files : List FileAnalysis
  summary : AnalysisSummary
deriving DecidableEq

/-- Object-member lookup on a parsed value; with duplicate keys the last
binding wins (as in the dict `json.loads` produces). -/
def jsonLookupLast (fields : List (String × Json)) (k : String) : Option Json :=
  ((fields.filter (fun kv => kv.1 == k)).getLast?).map Prod.snd

/-- Validate a required `str` field. -/
def validateStrField (loc : String) (fields : List (String × Json))
    (key : String) : Except String String :=
  match jsonLookupLast fields key with
  | Option.none => Except.error (loc ++ key ++ ": Field required")
  | some (Json.str s) => Except.ok s
  | some _ => Except.error (loc ++ key ++ ": Input should be a valid string")

/-- Validate a required `int` field, with an optional `ge` lower bound
(the only numeric constraint the schema declares). -/
def validateIntField (loc : String) (fields : List (String × Json))
    (key : String) (lbGe : Option Int) : Except String Int :=
  match jsonLookupLast fields key with
  | Option.none => Except.error (loc ++ key ++ ": Field required")
  | some (Json.num n) =>
    match lbGe with
    | some lb =>
      if n < lb then
        Except.error (loc ++ key ++
          ": Input should be greater than or equal to " ++ toString lb)
      else Except.ok n
    | Option.none => Except.ok n
  | some _ => Except.error (loc ++ key ++ ": Input should be a valid integer")

/-- `AnalysisIssue` validation: `type`, `description`, `suggestion` are
strings; `line` is an `int` with no bound (the source declares none). -/
def AnalysisIssue.model_validate (loc : String) (j : Json) :
    Except String AnalysisIssue :=
  match j with
  | Json.obj fields => do
    let t ← validateStrField loc fields ("type")
    let line ← validateIntField loc fields ("line") Option.none
    let d ← validateStrField loc fields ("description")
    let s ← validateStrField loc fields ("suggestion")
    Except.ok ⟨t, line, d, s⟩
  | _ => Except.error (loc ++ "__root__: Input should be a valid dictionary")

def validateIssueList (loc : String) (i : Nat) :
    List Json → Except String (List AnalysisIssue)
  | [] => Except.ok []
  | j :: js => do
    let issue ← AnalysisIssue.model_validate (loc ++ toString i ++ ".") j
    let rest ← validateIssueList loc (i + 1) js
    Except.ok (issue :: rest)

/-- `FileAnalysis` validation: `name` is a string; `issues` defaults to `[]`
when absent. -/
def FileAnalysis.model_validate (loc : String) (j : Json) :
    Except String FileAnalysis :=
  match j with
  | Json.obj fields => do
    let name ← validateStrField loc fields ("name")
    match jsonLookupLast fields ("issues") with
    | Option.none => Except.ok ⟨name, []⟩
    | some (Json.arr elems) => do
      let issues ← validateIssueList (loc ++ "issues.") 0 elems
      Except.ok ⟨name, issues⟩
    | some _ => Except.error (loc ++ "issues: Input should be a valid list")
  | _ => Except.error (loc ++ "__root__: Input should be a valid dictionary")

def validateFileList (loc : String) (i : Nat) :
    List Json → Except String (List FileAnalysis)
  | [] => Except.ok []
  | j :: js => do
    let f ← FileAnalysis.model_validate (loc ++ toString i ++ ".") j
    let rest ← validateFileList loc (i + 1) js
    Except.ok (f :: rest)

/-- `AnalysisSummary` validation: three `int` fields, each with `ge=0`. -/
def AnalysisSummary.model_validate (loc : String) (j : Json) :
    Except String AnalysisSummary :=
  match j with
  | Json.obj fields => do
    let tf ← validateIntField loc fields ("total_files") (some 0)
    let ti ← validateIntField loc fields ("total_issues") (some 0)
    let ci ← validateIntField loc fields ("critical_issues") (some 0)
    Except.ok ⟨tf, ti, ci⟩
  | _ => Except.error (loc ++ "__root__: Input should be a valid dictionary")

/-- `FinalReport.model_validate`: `files` defaults to `[]` when absent;
`summary` is required. -/
def FinalReport.model_validate (j : Json) : Except String FinalReport :=
  match j with
  | Json.obj fields => do
    let files ←
      match jsonLookupLast fields ("files") with
      | Option.none => Except.ok []
      | some (Json.arr elems) => validateFileList ("files.") 0 elems
      | some _ => Except.error ("files: Input should be a valid list")
    let summary ←
      match jsonLookupLast fields ("summary") with
      | Option.none => Except.error ("summary: Field required")
      | some js => AnalysisSummary.model_validate ("summary.") js
    Except.ok ⟨files, summary⟩
  | _ => Except.error ("__root__: Input should be a valid dictionary")

def AnalysisIssue.model_dump (i : AnalysisIssue) : Py :=
  Py.dict [("type", Py.str i.type), ("line", Py.int i.line),
    ("description", Py.str i.description), ("suggestion", Py.str i.suggestion)]

def FileAnalysis.model_dump (f : FileAnalysis) : Py :=
  Py.dict [("name", Py.str f.name),
    ("issues", Py.list (f.issues.map AnalysisIssue.model_dump))]

def AnalysisSummary.model_dump (s : AnalysisSummary) : Py :=
  Py.dict [("total_files", Py.int s.total_files),
    ("total_issues", Py.int s.total_issues),
    ("critical_issues", Py.int s.critical_issues)]

def FinalReport.model_dump (r : FinalReport) : Py :=
  Py.dict [("files", Py.list (r.files.map FileAnalysis.model_dump)),
    ("summary", r.summary.model_dump)]

/-!
## The classification pipeline (`worker.parse_and_validate_result`)
-/

/-- Stands for the message text of the `json.JSONDecodeError` interpolated
into the error dict; its exact wording is produced by the parsing library
and is not constrained by any claim. -/
def jsonDecodeErrorText : String := "Expecting value"

/-- `worker.parse_and_validate_result`: clean, parse, validate; on a parse
failure return an error dict whose `raw_response` is the first 1000
characters of the cleaned text; on a validation failure return an error
dict whose `raw_response` is the parsed value; otherwise return the
validated report's `model_dump`.  The source's final catch-all
(`error`/`exception_type`) is unreachable: no operation in the body raises
outside the two handled cases. -/
def parse_and_validate_result (raw_result : String) : Py :=
  let cleaned_result := clean_llm_output raw_result
  match parseJson cleaned_result with
  | Option.none =>
    Py.dict [("error", Py.str ("Failed to parse AI response as JSON. Error: "
        ++ jsonDecodeErrorText)),
      ("raw_response", Py.str (pySliceTo 1000 cleaned_result))]
  | some parsed_json =>
    match FinalReport.model_validate parsed_json with
    | Except.error e =>
      Py.dict [("error", Py.str ("AI response failed Pydantic validation. Error: "
          ++ e)),
        ("raw_response", pyOfJson parsed_json)]
    | Except.ok validated_report => validated_report.model_dump

/-!
## The worker task (`worker.analyze_pr_task`) and the task queue

Python control flow that may raise is modelled in `Except PyExc`; the
`try/except Exception` handler is the `match` in `analyze_pr_task`.
-/

/-- A Python exception as the handlers see it: its class name
(`type(e).__name__`) and its message (`str(e)`). -/
structure PyExc where
  typeName : String
  message : String
deriving DecidableEq

/-- What the external collaborators do during one run of `analyze_pr_task`:
building the crew and calling `kickoff` (which performs the GitHub fetches
and the LLM invocation) either raises or yields the raw text result. -/
structure WorkerEnv where
  crewResult : Except PyExc String

/-- The `try` body of `analyze_pr_task`: run the crew, then feed the raw
output through `parse_and_validate_result`; the error dict and the
validated dict are both returned normally (the source's `if 'error' in
final_result` branch only changes logging). -/
def analyze_pr_taskBody (env : WorkerEnv) : Except PyExc Py :=
  match env.crewResult with
  | Except.error e => Except.error e
  | Except.ok raw =>
    let final_result := parse_and_validate_result raw
    if pyHasKey final_result ("error") then Except.ok final_result
    else Except.ok final_result

/-- `worker.analyze_pr_task`: the whole body sits inside
`try ... except Exception`, whose handler returns an error dict carrying
the message and the exception's class name. -/
def analyze_pr_task (repo_url : String) (pr_number : Int) (env : WorkerEnv) :
    Except PyExc Py :=
  match analyze_pr_taskBody env with
  | Except.ok v => Except.ok v
  | Except.error e =>
    Except.ok (Py.dict [("error", Py.str ("Task failed for PR " ++ repo_url
        ++ "#" ++ toString pr_number ++ ": " ++ e.message)),
      ("exception_type", Py.str e.typeName)])

/-- Modelled from the task-queue collaborator (Celery): a task function
that returns normally is recorded in the backend as `SUCCESS`; one that
raises is recorded as `FAILURE`. -/
def celeryTerminalState (outcome : Except PyExc Py) : String :=
  match outcome with
  | Except.ok _ => "SUCCESS"
  | Except.error _ => "FAILURE"

/-- One record of the task state store (Celery result backend): the state
string and the stored payload (`AsyncResult.info` / `.result`). -/
structure TaskRecord where
  state : String
  payload : Py

/-- The record the backend keeps for a finished run. -/
def recordOfRun (outcome : Except PyExc Py) : TaskRecord :=
  match outcome with
  | Except.ok v => TaskRecord.mk "SUCCESS" v
  | Except.error e => TaskRecord.mk "FAILURE" (Py.str e.message)

/-- Modelled from the task-queue collaborator (Celery): `AsyncResult` on an
id the backend has no record for reports state `PENDING` with no payload;
unknown ids are indistinguishable from queued-but-unstarted jobs. -/
def asyncResultOf (store : String → Option TaskRecord) (task_id : String) :
    TaskRecord :=
  match store task_id with
  | Option.none => TaskRecord.mk "PENDING" Py.none
  | some r => r

/-- Python `str()` on stored payloads; used only by the FAILURE branch of
`get_task_status`, whose payload no claim inspects. -/
def pyToStr : Py → String
  | Py.none => "None"
  | Py.bool b => if b then "True" else "False"
  | Py.int n => toString n
  | Py.floatTok tok => tok
  | Py.str s => s
  | Py.list _ => "[...]"
  | Py.dict _ => "\x7b...\x7d"

/-- The dict `get_task_status` returns, as a structure with the source's
three keys. -/
structure StatusInfo where
  task_id : String
  status : String
  result : Option Py

/-- `worker.get_task_status`: query the backend and project the state; the
surrounding `try/except` turns a store failure (`storeExc`) into a dict
with the distinct status `"ERROR"` and the error message as the result. -/
def get_task_status (store : String → Option TaskRecord)
    (storeExc : Option PyExc) (task_id : String) : StatusInfo :=
  match storeExc with
  | some e =>
    StatusInfo.mk task_id "ERROR"
      (some (Py.str ("Error retrieving task status for " ++ task_id ++ ": "
        ++ e.message)))
  | Option.none =>
    let task_result := asyncResultOf store task_id
    let result : Option Py :=
      if task_result.state = "SUCCESS" then some task_result.payload
      else if task_result.state = "FAILURE" then
        some (Py.str (pyToStr task_result.payload))
      else if task_result.state = "PROGRESS" then some task_result.payload
      else Option.none
    StatusInfo.mk task_id task_result.state result

/-!
## The HTTP layer (`main.py`)
-/

/-- Python truthiness on the modelled values. -/
def pyTruthy : Py → Bool
  | Py.none => false
  | Py.bool b => b
  | Py.int n => n != 0
  | Py.floatTok _ => true
  | Py.str s => s != ""
  | Py.list xs => !xs.isEmpty
  | Py.dict kvs => !kvs.isEmpty

/-- Python `a or b`. -/
def pyOrElse (a b : Py) : Py :=
  if pyTruthy a then a else b

/-- `main.format_error_response`: the FAILED shape built from a worker
error dict; `details` is `raw_response or exception_type`. -/
def format_error_response (task_id : String) (result_data : Py) : Py :=
  Py.dict [("task_id", Py.str task_id), ("status", Py.str ("FAILED")),
    ("error", (pyGet result_data ("error")).getD Py.none),
    ("details", pyOrElse ((pyGet result_data ("raw_response")).getD Py.none)
      ((pyGet result_data ("exception_type")).getD Py.none))]

/-- `main.format_success_response`: the COMPLETED shape.  (The source
builds a response model that re-validates `result_data` against the report
schema; for payloads produced by this worker's success path that
re-validation succeeds, and no claim exercises it otherwise.) -/
def format_success_response (task_id : String) (result_data : Py) : Py :=
  Py.dict [("task_id", Py.str task_id), ("status", Py.str ("COMPLETED")),
    ("results", result_data)]

/-- `main.get_analysis_results` (the `GET` results endpoint): project the
store's state into one of the response shapes.  Dispatch is exactly on the
status string: `SUCCESS` (then on whether the payload carries an `error`
key), `FAILURE`, else pending/progress. -/
def get_analysis_results (store : String → Option TaskRecord)
    (storeExc : Option PyExc) (task_id : String) : Py :=
  let status_info := get_task_status store storeExc task_id
  if status_info.status = "SUCCESS" then
    let result_data := (status_info.result).getD Py.none
    if pyHasKey result_data ("error") then
      format_error_response task_id result_data
    else
      format_success_response task_id result_data
  else if status_info.status = "FAILURE" then
    Py.dict [("task_id", Py.str task_id), ("status", Py.str ("FAILED")),
      ("error", Py.str ("An unexpected error occurred in the task.")),
      ("details", (status_info.result).getD Py.none)]
  else
    Py.dict [("task_id", Py.str task_id), ("status", Py.str status_info.status),
      ("details", (status_info.result).getD Py.none)]

/-- `models.AnalysisRequest`: `repo_url: str`, `pr_number: int` with
`gt=0`, optional token.  The structure holds a successfully parsed body. -/
structure AnalysisRequest where
  repo_url : String
  pr_number : Int
  github_token : Option String

/-- The request-model validation the framework runs before the endpoint
body: the only declared constraint is `pr_number > 0` (`gt=0`). -/
def AnalysisRequest.model_validate (repo_url : String) (pr_number : Int)
    (github_token : Option String) : Option AnalysisRequest :=
  if pr_number > 0 then some (AnalysisRequest.mk repo_url pr_number github_token)
  else Option.none

/-- `main.validate_analysis_request`: the endpoint's own checks, each
raising an HTTP 400 with a detail message. -/
def validate_analysis_request (request : AnalysisRequest) :
    Except (Nat × String) Unit :=
  if request.repo_url == "" || pyStrip request.repo_url == "" then
    Except.error (400, "Repository URL is required and cannot be empty")
  else if !(pyStartsWith request.repo_url ("https://github.com/")) then
    Except.error (400, "Repository URL must be a valid GitHub URL")
  else if request.pr_number ≤ 0 then
    Except.error (400, "PR number must be a positive integer")
  else Except.ok ()

/-- Outcome of one `POST /analyze-pr` submission: the HTTP status returned
and the jobs enqueued to the task queue by this request. -/
structure SubmitOutcome where
  httpStatus : Nat
  enqueued : List (String × Int)
deriving DecidableEq

/-- The `POST /analyze-pr` path end to end.  Modelled from the framework
behavior the repository's own `test_api.py` asserts: the body is first
validated against `AnalysisRequest` and a model-validation failure yields
HTTP 422 with the endpoint body never run and nothing enqueued; otherwise
`submit_analysis` runs `validate_analysis_request` (HTTP 400 on failure,
nothing enqueued) and only then enqueues the task (HTTP 202). -/
def handleAnalyzePr (repo_url : String) (pr_number : Int)
    (github_token : Option String) : SubmitOutcome :=
  match AnalysisRequest.model_validate repo_url pr_number github_token with
  | Option.none => SubmitOutcome.mk 422 []
  | some req =>
    match validate_analysis_request req with
    | Except.error st => SubmitOutcome.mk st.1 []
    | Except.ok _ => SubmitOutcome.mk 202 [(req.repo_url, req.pr_number)]

/-!
## Theorems settling the claims
-/

lemma dropWhile_rdropWhile_dropWhile (p : Char → Bool) (l : List Char) :
    List.dropWhile p (List.rdropWhile p (List.dropWhile p l)) =
      List.rdropWhile p (List.dropWhile p l) := by
  rw [List.dropWhile_eq_self_iff]
  intro hl
  have hpre : List.rdropWhile p (List.dropWhile p l) <+: List.dropWhile p l :=
    List.rdropWhile_prefix p _
  have hlen : 0 < (List.dropWhile p l).length :=
    lt_of_lt_of_le hl hpre.length_le
  have hget := List.dropWhile_get_zero_not p l hlen
  have heq : (List.rdropWhile p (List.dropWhile p l)).get ⟨0, hl⟩ =
      (List.dropWhile p l).get ⟨0, hlen⟩ := by
    simp [List.get_eq_getElem, hpre.getElem]
  rw [heq]
  exact hget

lemma pyStripList_idem (l : List Char) :
    pyStripList (pyStripList l) = pyStripList l := by
  unfold pyStripList
  rw [dropWhile_rdropWhile_dropWhile, List.rdropWhile_idempotent]

lemma pyStrip_idem (s : String) : pyStrip (pyStrip s) = pyStrip s := by
  show String.mk (pyStripList (String.mk (pyStripList s.data)).data) =
    String.mk (pyStripList s.data)
  exact congrArg String.mk (pyStripList_idem s.data)

lemma pyStrip_clean (T : String) :
    pyStrip (clean_llm_output T) = clean_llm_output T :=
  pyStrip_idem (stripTrailingFence (stripLeadingFence (pyStrip T)))

lemma startsWith_fence_of_json (s : String)
    (h : pyStartsWith s ("```json") = true) : pyStartsWith s ("```") = true := by
  unfold pyStartsWith at h ⊢
  rw [List.isPrefixOf_iff_prefix] at h ⊢
  have h0 : (("```" : String).data) <+: (("```json" : String).data) :=
    ⟨['j', 's', 'o', 'n'], rfl⟩
  exact h0.trans h

/-- C2 counterexample: on nine backticks one normalization yields "```",
but a second normalization strips that fence too, yielding "" — so
`clean_llm_output` is not idempotent as claimed. -/
theorem clean_llm_output_not_idempotent :
    clean_llm_output (clean_llm_output ("`````````")) ≠
      clean_llm_output ("`````````") := by decide

/-- C2 (amended): `clean_llm_output` is idempotent on every text whose
normalized form neither starts nor ends with a "```" fence marker; a
second application may strip further markers otherwise. -/
theorem clean_llm_output_idem_of_fence_free (T : String)
    (h1 : pyStartsWith (clean_llm_output T) ("```") = false)
    (h2 : pyEndsWith (clean_llm_output T) ("```") = false) :
    clean_llm_output (clean_llm_output T) = clean_llm_output T := by
  have hjson : pyStartsWith (clean_llm_output T) ("```json") = false := by
    cases hj : pyStartsWith (clean_llm_output T) ("```json")
    · rfl
    · rw [startsWith_fence_of_json _ hj] at h1
      exact absurd h1 (by simp)
  show pyStrip (stripTrailingFence (stripLeadingFence
    (pyStrip (clean_llm_output T)))) = clean_llm_output T
  rw [pyStrip_clean]
  rw [show stripLeadingFence (clean_llm_output T) = clean_llm_output T from by
    simp [stripLeadingFence, hjson, h1]]
  rw [show stripTrailingFence (clean_llm_output T) = clean_llm_output T from by
    simp [stripTrailingFence, h2]]
  exact pyStrip_clean T

/-- C2 witness: the amended idempotence applied at the fence-free text
"abc". -/
theorem clean_llm_output_idem_witness :
    pyStartsWith (clean_llm_output ("abc")) ("```") = false ∧
    pyEndsWith (clean_llm_output ("abc")) ("```") = false ∧
    clean_llm_output (clean_llm_output ("abc")) = clean_llm_output ("abc") :=
  ⟨rfl, rfl, clean_llm_output_idem_of_fence_free ("abc") rfl rfl⟩

/-- The scenario A input: a fenced, empty-files report. -/
def scenarioARaw : String :=
  "```json\n\x7b\"files\":[],\"summary\":\x7b\"total_files\":0,\"total_issues\":0,\"critical_issues\":0\x7d\x7d\n```"

/-- C5: on the fenced empty-report input the pipeline strips the fences,
parses and validates, and returns the dumped report — an empty files list
with the given summary and no "error" key. -/
theorem scenarioA_returns_completed_report :
    parse_and_validate_result scenarioARaw =
      Py.dict [("files", Py.list []),
        ("summary", Py.dict [("total_files", Py.int 0),
          ("total_issues", Py.int 0), ("critical_issues", Py.int 0)])] ∧
    pyHasKey (parse_and_validate_result scenarioARaw) ("error") = false :=
  ⟨rfl, rfl⟩

/-- C6: whenever the normalized text fails to parse, the returned error
dict's `raw_response` is exactly the first 1000 characters of the
normalized input. -/
theorem parse_failure_snippet (raw : String)
    (h : parseJson (clean_llm_output raw) = Option.none) :
    parse_and_validate_result raw =
      Py.dict [("error", Py.str ("Failed to parse AI response as JSON. Error: "
          ++ jsonDecodeErrorText)),
        ("raw_response", Py.str (pySliceTo 1000 (clean_llm_output raw)))] := by
  unfold parse_and_validate_result
  simp only []
  rw [h]

/-- C6 witness: for the input "not json at all" the parser fails and the
snippet is the input itself. -/
theorem parse_failure_snippet_witness :
    parseJson (clean_llm_output ("not json at all")) = Option.none ∧
    parse_and_validate_result ("not json at all") =
      Py.dict [("error", Py.str ("Failed to parse AI response as JSON. Error: "
          ++ jsonDecodeErrorText)),
        ("raw_response", Py.str ("not json at all"))] :=
  ⟨rfl, parse_failure_snippet ("not json at all") rfl⟩

/-- C9: if querying the task state store raises, `get_task_status` does not
propagate the exception: it returns a dict with the distinct status
"ERROR" and the error message as the result. -/
theorem store_error_reported_as_error_status
    (store : String → Option TaskRecord) (e : PyExc) (task_id : String) :
    get_task_status store (some e) task_id =
      StatusInfo.mk task_id "ERROR"
        (some (Py.str ("Error retrieving task status for " ++ task_id ++ ": "
          ++ e.message))) :=
  rfl

/-- C7: any exception from a collaborator inside the task body is caught;
the task returns (rather than raises) an error dict carrying the message
and `type(e).__name__`, and the job's terminal state is SUCCESS. -/
theorem collaborator_exception_caught (repo_url : String) (pr_number : Int)
    (env : WorkerEnv) (e : PyExc) (h : env.crewResult = Except.error e) :
    analyze_pr_task repo_url pr_number env =
      Except.ok (Py.dict [("error", Py.str ("Task failed for PR " ++ repo_url
          ++ "#" ++ toString pr_number ++ ": " ++ e.message)),
        ("exception_type", Py.str e.typeName)]) ∧
    celeryTerminalState (analyze_pr_task repo_url pr_number env) = "SUCCESS" := by
  have hb : analyze_pr_taskBody env = Except.error e := by
    unfold analyze_pr_taskBody
    rw [h]
  constructor
  · unfold analyze_pr_task
    rw [hb]
  · unfold celeryTerminalState analyze_pr_task
    rw [hb]

/-- C7 witness: a GitHub fetch failure (a `ConnectionError` raised before
any model call) resolves as SUCCESS carrying the exception payload. -/
theorem collaborator_exception_caught_witness :
    analyze_pr_task ("https://github.com/a/b") 5
        (WorkerEnv.mk (Except.error (PyExc.mk "ConnectionError" "fetch failed"))) =
      Except.ok (Py.dict [("error", Py.str ("Task failed for PR "
          ++ "https://github.com/a/b" ++ "#" ++ toString (5 : Int) ++ ": "
          ++ "fetch failed")),
        ("exception_type", Py.str "ConnectionError")]) ∧
    celeryTerminalState (analyze_pr_task ("https://github.com/a/b") 5
        (WorkerEnv.mk (Except.error (PyExc.mk "ConnectionError" "fetch failed")))) =
      "SUCCESS" :=
  collaborator_exception_caught ("https://github.com/a/b") 5
    (WorkerEnv.mk (Except.error (PyExc.mk "ConnectionError" "fetch failed")))
    (PyExc.mk "ConnectionError" "fetch failed") rfl

lemma pipeline_keys (raw : String) :
    pyKeys (parse_and_validate_result raw) = ["files", "summary"] ∨
      pyKeys (parse_and_validate_result raw) = ["error", "raw_response"] := by
  unfold parse_and_validate_result
  simp only []
  cases parseJson (clean_llm_output raw) with
  | none => right; rfl
  | some j =>
    simp only []
    cases FinalReport.model_validate j with
    | error e => right; simp [pyKeys]
    | ok r => left; simp [pyKeys, FinalReport.model_dump]

lemma analyze_pr_task_returns (repo_url : String) (pr_number : Int)
    (env : WorkerEnv) :
    ∃ p, analyze_pr_task repo_url pr_number env = Except.ok p := by
  unfold analyze_pr_task
  cases analyze_pr_taskBody env with
  | ok v => exact ⟨v, rfl⟩
  | error e => exact ⟨_, rfl⟩

lemma analyze_pr_taskBody_of_ok (env : WorkerEnv) (raw : String)
    (h : env.crewResult = Except.ok raw) :
    analyze_pr_taskBody env = Except.ok (parse_and_validate_result raw) := by
  unfold analyze_pr_taskBody
  rw [h]
  simp only []
  rw [ite_self]

/-- C1: for every collaborator behavior the task's returned value has
exactly one of the three outcome shapes: the validated report dict (keys
`files`, `summary`), the parse/validation error dict (keys `error`,
`raw_response`), or the exception error dict (keys `error`,
`exception_type`). -/
theorem classifier_totality (repo_url : String) (pr_number : Int)
    (env : WorkerEnv) :
    ∃ p, analyze_pr_task repo_url pr_number env = Except.ok p ∧
      ((pyKeys p = ["files", "summary"] ∧
          pyKeys p ≠ ["error", "raw_response"] ∧
          pyKeys p ≠ ["error", "exception_type"]) ∨
       (pyKeys p ≠ ["files", "summary"] ∧
          pyKeys p = ["error", "raw_response"] ∧
          pyKeys p ≠ ["error", "exception_type"]) ∨
       (pyKeys p ≠ ["files", "summary"] ∧
          pyKeys p ≠ ["error", "raw_response"] ∧
          pyKeys p = ["error", "exception_type"])) := by
  cases henv : env.crewResult with
  | error e =>
    refine ⟨Py.dict [("error", Py.str ("Task failed for PR " ++ repo_url
        ++ "#" ++ toString pr_number ++ ": " ++ e.message)),
      ("exception_type", Py.str e.typeName)], ?_, ?_⟩
    · unfold analyze_pr_task
      rw [show analyze_pr_taskBody env = Except.error e from by
        unfold analyze_pr_taskBody; rw [henv]]
    · right; right
      exact ⟨by simp [pyKeys], by simp [pyKeys], rfl⟩
  | ok raw =>
    refine ⟨parse_and_validate_result raw, ?_, ?_⟩
    · unfold analyze_pr_task
      rw [analyze_pr_taskBody_of_ok env raw henv]
    · rcases pipeline_keys raw with h | h
      · left
        rw [h]
        exact ⟨rfl, by decide, by decide⟩
      · right; left
        rw [h]
        exact ⟨by decide, rfl, by decide⟩

/-- The backend after the worker finished the job `task_id`: that one
record replaced, every other id untouched. -/
def storeUpdate (store : String → Option TaskRecord) (task_id : String)
    (rec : TaskRecord) : String → Option TaskRecord :=
  fun id => if id = task_id then some rec else store id

/-- C10: `analyze_pr_task` never raises — every run returns a value, so the
job's terminal state is SUCCESS, and the façade applied to the record of
such a run takes its SUCCESS branch (never the FAILURE branch). -/
theorem worker_task_never_fails (repo_url : String) (pr_number : Int)
    (env : WorkerEnv) (store : String → Option TaskRecord) (task_id : String) :
    ∃ p, analyze_pr_task repo_url pr_number env = Except.ok p ∧
      celeryTerminalState (analyze_pr_task repo_url pr_number env) = "SUCCESS" ∧
      get_analysis_results
          (storeUpdate store task_id
            (recordOfRun (analyze_pr_task repo_url pr_number env)))
          Option.none task_id =
        (if pyHasKey p ("error") then format_error_response task_id p
         else format_success_response task_id p) := by
  obtain ⟨p, hp⟩ := analyze_pr_task_returns repo_url pr_number env
  refine ⟨p, hp, ?_, ?_⟩
  · rw [hp]
    rfl
  · rw [hp]
    simp [get_analysis_results, get_task_status, asyncResultOf, storeUpdate,
      recordOfRun]

/-- The scenario C parsed value: a report whose single issue has
`line: -1`. -/
def scenarioCJson : Json :=
  Json.obj [("files", Json.arr [Json.obj [("name", Json.str "a.py"),
    ("issues", Json.arr [Json.obj [("type", Json.str "bug"),
      ("line", Json.num (-1)), ("description", Json.str "x"),
      ("suggestion", Json.str "y")]])]]),
    ("summary", Json.obj [("total_files", Json.num 1),
      ("total_issues", Json.num 1), ("critical_issues", Json.num 1)])]

/-- The scenario C report as raw text. -/
def scenarioCRaw : String :=
  "\x7b\"files\":[\x7b\"name\":\"a.py\",\"issues\":[\x7b\"type\":\"bug\",\"line\":-1,\"description\":\"x\",\"suggestion\":\"y\"\x7d]\x7d],\"summary\":\x7b\"total_files\":1,\"total_issues\":1,\"critical_issues\":1\x7d\x7d"

/-- C3 counterexample: the schema does NOT reject `line: -1` — the
scenario C value validates successfully and the pipeline returns it as a
validated report (no "error" key), with the issue's line equal to -1. -/
theorem line_minus_one_passes_validation :
    FinalReport.model_validate scenarioCJson =
      Except.ok (FinalReport.mk
        [FileAnalysis.mk "a.py" [AnalysisIssue.mk "bug" (-1) "x" "y"]]
        (AnalysisSummary.mk 1 1 1)) ∧
    pyHasKey (parse_and_validate_result scenarioCRaw) ("error") = false ∧
    pyGet (parse_and_validate_result scenarioCRaw) ("files") =
      some (Py.list [Py.dict [("name", Py.str "a.py"),
        ("issues", Py.list [Py.dict [("type", Py.str "bug"),
          ("line", Py.int (-1)), ("description", Py.str "x"),
          ("suggestion", Py.str "y")]])]]) :=
  ⟨rfl, rfl, rfl⟩

/-- C3 (amended): `line` carries no bound in the schema, so an issue with
any integer line — including values below 1 — passes validation with the
line kept as given. -/
theorem issue_line_unconstrained (loc t d s : String) (n : Int) :
    AnalysisIssue.model_validate loc (Json.obj [("type", Json.str t),
      ("line", Json.num n), ("description", Json.str d),
      ("suggestion", Json.str s)]) =
      Except.ok (AnalysisIssue.mk t n d s) := rfl

/-- C4 counterexample: an id the store has no record for is reported with
the lifecycle state "PENDING" by both `get_task_status` and the results
façade — not as a NotFound condition. -/
theorem unknown_id_reported_as_pending_state :
    (get_task_status (fun _ => Option.none) Option.none
      ("invalid-task-id-123")).status = "PENDING" ∧
    ("PENDING" : String) ≠ "NotFound" ∧
    pyGet (get_analysis_results (fun _ => Option.none) Option.none
      ("invalid-task-id-123")) ("status") = some (Py.str ("PENDING")) :=
  ⟨rfl, by decide, rfl⟩

/-- C4 (amended): for every id unknown to the store, the façade reports the
backend's default state "PENDING" (HTTP 200), indistinguishable from a
queued job; no NotFound condition exists in the code. -/
theorem unknown_id_reported_pending (store : String → Option TaskRecord)
    (task_id : String) (h : store task_id = Option.none) :
    (get_task_status store Option.none task_id).status = "PENDING" ∧
    pyGet (get_analysis_results store Option.none task_id) ("status") =
      some (Py.str ("PENDING")) := by
  have ha : asyncResultOf store task_id = TaskRecord.mk "PENDING" Py.none := by
    unfold asyncResultOf
    rw [h]
  constructor
  · simp [get_task_status, ha]
  · simp [get_analysis_results, get_task_status, ha, pyGet]

/-- C4 witness: the amended behavior at an empty store. -/
theorem unknown_id_reported_pending_witness :
    (get_task_status (fun _ => Option.none) Option.none ("unknown-id")).status
      = "PENDING" ∧
    pyGet (get_analysis_results (fun _ => Option.none) Option.none
      ("unknown-id")) ("status") = some (Py.str ("PENDING")) :=
  unknown_id_reported_pending (fun _ => Option.none) ("unknown-id") rfl

/-- C8 counterexample: a submission with `pr_number: 0` is rejected by the
request-model validation with HTTP 422 — not 400 — and nothing is
enqueued. -/
theorem pr_number_zero_rejected_with_422 :
    handleAnalyzePr ("https://github.com/a/b") 0 Option.none =
      SubmitOutcome.mk 422 [] ∧
    (422 : Nat) ≠ 400 :=
  ⟨rfl, by decide⟩

/-- C8 (amended): every submission with `pr_number ≤ 0` is rejected at the
request-model layer with HTTP 422 and no job is enqueued (the handler's
own 400 branch for `pr_number ≤ 0` is unreachable). -/
theorem nonpositive_pr_number_rejected (repo_url : String)
    (tok : Option String) (pr_number : Int) (h : pr_number ≤ 0) :
    handleAnalyzePr repo_url pr_number tok = SubmitOutcome.mk 422 [] := by
  unfold handleAnalyzePr AnalysisRequest.model_validate
  rw [if_neg (by omega)]

/-- C8 witness: the amended rejection at `pr_number: 0`. -/
theorem nonpositive_pr_number_rejected_witness :
    (0 : Int) ≤ 0 ∧
    handleAnalyzePr ("https://github.com/a/b") 0 Option.none =
      SubmitOutcome.mk 422 [] :=
  ⟨by decide, nonpositive_pr_number_rejected ("https://github.com/a/b")
    Option.none 0 (by decide)⟩
